import Mathlib

/-!
A shallow embedding of the stateful detector evaluation engine of this
repository's workflow engine, together with the `MetricAlertDetectorHandler`
from `src/sentry/incidents/grouptype.py`.

The generic engine (`StatefulDetectorHandler`, `process_detectors`, the State
Store) is not present under `src/`; only its test suite
(`tests/sentry/workflow_engine/processors/test_detector.py`) and one concrete
subclass are.  Those parts are modelled from the specification, with the test
suite pinning down the observable behavior where the two disagree (notably:
the tests call `commit_state_updates` explicitly after `evaluate` and observe
populated staging buffers in between, so `evaluate` stages without
committing, and `commit_state_updates` clears the buffers).
-/

/-- Modelled from the spec: the priority level enum of the workflow engine
(`DetectorPriorityLevel`), ordered OK < LOW < MEDIUM < HIGH. -/
inductive DetectorPriorityLevel where
  | ok
  | low
  | medium
  | high
deriving DecidableEq

/-- Ordinal value of a priority level (OK=0, LOW=25, MEDIUM=50, HIGH=75). -/
def DetectorPriorityLevel.value : DetectorPriorityLevel → Nat
  | .ok => 0
  | .low => 25
  | .medium => 50
  | .high => 75

/-- The larger of two priority levels, by ordinal value. -/
def DetectorPriorityLevel.max (a b : DetectorPriorityLevel) : DetectorPriorityLevel :=
  if a.value ≤ b.value then b else a

/-- Modelled from the spec: the comparison operator of one condition of a
condition group (greater-than, less-than, and their or-equal siblings). -/
inductive DataConditionComparator where
  | gt
  | gte
  | lt
  | lte
deriving DecidableEq

/-- Modelled from the spec: one entry of a detector's condition group —
`(comparator, threshold, result-priority)`. -/
structure DataCondition where
  comparator : DataConditionComparator
  threshold : Int
  result_priority : DetectorPriorityLevel
deriving DecidableEq

/-- Modelled from the spec: whether one condition matches a candidate value. -/
def DataCondition.evaluate (c : DataCondition) (value : Int) : Bool :=
  match c.comparator with
  | .gt => decide (value > c.threshold)
  | .gte => decide (value ≥ c.threshold)
  | .lt => decide (value < c.threshold)
  | .lte => decide (value ≤ c.threshold)

/-- Modelled from the spec: the Condition Evaluator — evaluate every condition
of the ordered group against the value and return the highest-priority
matching result, or OK ("no match") when none match. -/
def evaluate_condition_group (conds : List DataCondition) (value : Int) :
    DetectorPriorityLevel :=
  (conds.filter (fun c => c.evaluate value)).foldl
    (fun acc c => DetectorPriorityLevel.max acc c.result_priority) .ok

/-- `PriorityLevel` (sentry.types.group): user-facing ordinal priority. -/
inductive PriorityLevel where
  | low
  | medium
  | high
deriving DecidableEq

/-- Ordinal value of a user-facing priority level. -/
def PriorityLevel.value : PriorityLevel → Nat
  | .low => 25
  | .medium => 50
  | .high => 75

/-- `IssueOccurrence` as constructed by
`MetricAlertDetectorHandler.build_occurrence_and_event_data`
(src/sentry/incidents/grouptype.py); `detection_time` is the wall-clock
instant of the call, threaded as an explicit parameter of the embedding. -/
structure IssueOccurrence where
  id : String
  project_id : Nat
  event_id : String
  fingerprint : List String
  issue_title : String
  subtitle : String
  resource_id : Option String
  evidence_data : List (String × String)
  evidence_display : List String
  type_id : Nat
  detection_time : Nat
  level : String
  culprit : String
  initial_issue_priority : Nat
deriving DecidableEq

/-- The event-data payload built alongside an `IssueOccurrence`
(src/sentry/incidents/grouptype.py). -/
structure EventData where
  timestamp : Nat
  project_id : Nat
  event_id : String
  platform : String
  received : Nat
  tags : List (String × String)
deriving DecidableEq

/-- Modelled from the spec: an Evaluation Result — group key, is_active,
priority, optional opaque occurrence/event payload. -/
structure DetectorEvaluationResult where
  group_key : Option String
  is_active : Bool
  priority : DetectorPriorityLevel
  result : Option IssueOccurrence
  event_data : Option EventData
deriving DecidableEq

/-- `DataPacket`: a source key plus an opaque payload. -/
structure DataPacket (T : Type) where
  query_id : String
  packet : T

/-- Modelled from the spec: the read-only Detector configuration entity —
identifier, type slug, optional condition group. -/
structure Detector where
  id : Nat
  type : String
  workflow_condition_group : Option (List DataCondition)
deriving DecidableEq

/-- Modelled from the spec: `DetectorStateData`, the authoritative state
snapshot for one (detector, group-key) pair. -/
structure DetectorStateData where
  group_key : Option String
  active : Bool
  status : DetectorPriorityLevel
  dedupe_value : Int
  counter_updates : List (String × Option Int)
deriving DecidableEq

/-- Modelled from the spec: the State Store's two backends — a durable
per-(detector id, group key) record `(active, status)` and an expiring cache
from derived string keys to integer values.  A `none` lookup is a miss/absent
key. -/
structure StateStore where
  durable : Nat → Option String → Option (Bool × DetectorPriorityLevel)
  cache : String → Option Int

/-- Write one cache key: `some` sets an (expiring) value, `none` removes the
key. -/
def cacheSet (c : String → Option Int) (key : String) (v : Option Int) :
    String → Option Int :=
  fun s => if s = key then v else c s

/-- Lookup in an association list (a Python `dict.get`). -/
def alistGet {K V : Type} [DecidableEq K] : List (K × V) → K → Option V
  | [], _ => none
  | (k', v) :: rest, k => if k = k' then some v else alistGet rest k

/-- Insert-or-overwrite in an association list (a Python dict item write). -/
def alistSet {K V : Type} [DecidableEq K] : List (K × V) → K → V → List (K × V)
  | [], k, v => [(k, v)]
  | (k', v') :: rest, k, v =>
    if k = k' then (k, v) :: rest else (k', v') :: alistSet rest k v

/-- Modelled from the spec: a stateful detector handler — the detector it is
bound to, its declared counter names, its handler-specific extraction
capabilities (`get_dedupe_value`, `get_group_key_values`), and the three
request-scoped staging buffers. -/
structure StatefulDetectorHandler (P : Type) where
  detector : Detector
  counter_names : List String
  get_dedupe_value : DataPacket P → Int
  get_group_key_values : DataPacket P → List (Option String × Int)
  dedupe_updates : List (Option String × Int)
  counter_updates : List (Option String × List (String × Option Int))
  state_updates : List (Option String × (Bool × DetectorPriorityLevel))

/-- The handler's condition group comes from its detector's configuration. -/
def StatefulDetectorHandler.condition_group {P : Type}
    (h : StatefulDetectorHandler P) : Option (List DataCondition) :=
  h.detector.workflow_condition_group

/-- Python string form of an optional group key (`str(None)` is `"None"`). -/
def groupKeyStr : Option String → String
  | none => "None"
  | some s => s

/-- Modelled from the spec: the derived cache key
`{detector_id}:{group_key}:dedupe_value`. -/
def StatefulDetectorHandler.build_dedupe_value_key {P : Type}
    (h : StatefulDetectorHandler P) (group_key : Option String) : String :=
  Nat.repr h.detector.id ++ ":" ++ groupKeyStr group_key ++ ":" ++ "dedupe_value"

/-- Modelled from the spec: the derived cache key
`{detector_id}:{group_key}:{counter_name}`. -/
def StatefulDetectorHandler.build_counter_value_key {P : Type}
    (h : StatefulDetectorHandler P) (group_key : Option String) (name : String) :
    String :=
  Nat.repr h.detector.id ++ ":" ++ groupKeyStr group_key ++ ":" ++ name

/-- Modelled from the spec: the state record the State Store materializes for
one requested key — durable fields default to `(active=False, status=OK)`, a
dedupe cache miss degrades to `0`, and a counter cache miss to null. -/
def StatefulDetectorHandler.state_for_key {P : Type}
    (h : StatefulDetectorHandler P) (store : StateStore) (k : Option String) :
    DetectorStateData :=
  { group_key := k
    active := ((store.durable h.detector.id k).map Prod.fst).getD false
    status := ((store.durable h.detector.id k).map Prod.snd).getD .ok
    dedupe_value := (store.cache (h.build_dedupe_value_key k)).getD 0
    counter_updates :=
      h.counter_names.map fun n =>
        (n, store.cache (h.build_counter_value_key k n)) }

/-- Modelled from the spec: the batched `get_state_data` read — one
materialized record per requested key, never a "not found" failure. -/
def StatefulDetectorHandler.get_state_data {P : Type}
    (h : StatefulDetectorHandler P) (store : StateStore)
    (group_keys : List (Option String)) :
    List (Option String × DetectorStateData) :=
  group_keys.map fun k => (k, h.state_for_key store k)

/-- Modelled from the spec: the default state lazily materialized for a
never-seen key — inactive, OK, dedupe 0, every declared counter null. -/
def StatefulDetectorHandler.default_state_data {P : Type}
    (h : StatefulDetectorHandler P) (group_key : Option String) :
    DetectorStateData :=
  { group_key := group_key
    active := false
    status := .ok
    dedupe_value := 0
    counter_updates := h.counter_names.map fun n => (n, none) }

/-- Modelled from the spec: stage a dedupe value for one group key. -/
def StatefulDetectorHandler.enqueue_dedupe_update {P : Type}
    (h : StatefulDetectorHandler P) (group_key : Option String)
    (dedupe_value : Int) : StatefulDetectorHandler P :=
  { h with dedupe_updates := alistSet h.dedupe_updates group_key dedupe_value }

/-- Modelled from the spec: stage per-counter updates for one group key. -/
def StatefulDetectorHandler.enqueue_counter_update {P : Type}
    (h : StatefulDetectorHandler P) (group_key : Option String)
    (values : List (String × Option Int)) : StatefulDetectorHandler P :=
  { h with counter_updates := alistSet h.counter_updates group_key values }

/-- Modelled from the spec: stage the `(active, status)` state for one group
key. -/
def StatefulDetectorHandler.enqueue_state_update {P : Type}
    (h : StatefulDetectorHandler P) (group_key : Option String) (active : Bool)
    (status : DetectorPriorityLevel) : StatefulDetectorHandler P :=
  { h with state_updates := alistSet h.state_updates group_key (active, status) }

/-- Modelled from the spec: flush all staged updates to the State Store in
one commit call — overwrite dedupe values, per-counter overwrite (a null
value clears the cache key, a non-null value sets it), upsert the durable
`(active, status)` record for every group key a state update was staged for —
and discard the staging buffers. -/
def StatefulDetectorHandler.commit_state_updates {P : Type}
    (h : StatefulDetectorHandler P) (store : StateStore) :
    StatefulDetectorHandler P × StateStore :=
  let cache1 := h.dedupe_updates.foldl
    (fun c kv => cacheSet c (h.build_dedupe_value_key kv.1) (some kv.2))
    store.cache
  let cache2 := h.counter_updates.foldl
    (fun c kv =>
      kv.2.foldl (fun c' nv => cacheSet c' (h.build_counter_value_key kv.1 nv.1) nv.2) c)
    cache1
  let durable2 := h.state_updates.foldl
    (fun dur kv => fun did gk =>
      if did = h.detector.id ∧ gk = kv.1 then some kv.2 else dur did gk)
    store.durable
  ({ h with dedupe_updates := [], counter_updates := [], state_updates := [] },
    { durable := durable2, cache := cache2 })

/-- Modelled from the spec: the per-group-key state machine — the dedupe
check with its `skipping_already_processed_update` signal, unconditional
dedupe staging for fresh values, the `skipping_invalid_condition_group`
guard, condition evaluation, and transition detection.  Returns the optional
evaluation result, the handler with its updated staging buffers, and the
emitted telemetry signals. -/
def StatefulDetectorHandler.evaluate_group_key_value {P : Type}
    (h : StatefulDetectorHandler P) (group_key : Option String) (value : Int)
    (state_data : DetectorStateData) (dedupe_value : Int) :
    Option DetectorEvaluationResult × StatefulDetectorHandler P × List String :=
  if dedupe_value ≤ state_data.dedupe_value then
    (none, h, ["skipping_already_processed_update"])
  else
    let h1 := h.enqueue_dedupe_update group_key dedupe_value
    match h1.condition_group with
    | none => (none, h1, ["skipping_invalid_condition_group"])
    | some conds =>
      let new_priority := evaluate_condition_group conds value
      let new_active := decide (new_priority ≠ DetectorPriorityLevel.ok)
      let h2 := h1.enqueue_counter_update group_key []
      if state_data.active = new_active ∧ state_data.status = new_priority then
        (none, h2, [])
      else
        let h3 := h2.enqueue_state_update group_key new_active new_priority
        (some ⟨group_key, new_active, new_priority, none, none⟩, h3, [])

/-- Modelled from the spec: fold the per-group-key state machine over the
packet's group values; every occurrence is evaluated against the same prior
snapshot (`state_map`), never against mid-packet staged values. -/
def StatefulDetectorHandler.evalGroupKeys {P : Type} :
    StatefulDetectorHandler P → List (Option String × DetectorStateData) → Int →
    List (Option String × Int) →
    List DetectorEvaluationResult × StatefulDetectorHandler P × List String
  | h, _, _, [] => ([], h, [])
  | h, state_map, dedupe_value, (k, v) :: rest =>
    let sd := (alistGet state_map k).getD (h.default_state_data k)
    let out := h.evaluate_group_key_value k v sd dedupe_value
    let outs := StatefulDetectorHandler.evalGroupKeys out.2.1 state_map dedupe_value rest
    (out.1.toList ++ outs.1, outs.2.1, out.2.2 ++ outs.2.2)

/-- Modelled from the spec: when the condition group is missing, the handler
still performs the dedupe check per group key, staging only the dedupe update
for the keys that pass it. -/
def StatefulDetectorHandler.stageDedupes {P : Type} :
    StatefulDetectorHandler P → List (Option String × DetectorStateData) → Int →
    List (Option String × Int) → StatefulDetectorHandler P × List String
  | h, _, _, [] => (h, [])
  | h, state_map, dedupe_value, (k, _) :: rest =>
    let sd := (alistGet state_map k).getD (h.default_state_data k)
    if dedupe_value ≤ sd.dedupe_value then
      let out := StatefulDetectorHandler.stageDedupes h state_map dedupe_value rest
      (out.1, "skipping_already_processed_update" :: out.2)
    else
      let h1 := h.enqueue_dedupe_update k dedupe_value
      (StatefulDetectorHandler.stageDedupes h1 state_map dedupe_value rest)

/-- Modelled from the spec: the packet-level `evaluate` — extract the dedupe
value and the group values, fetch prior state for all group keys in one
batched call, then run the per-key state machine; with no condition group
configured, skip evaluation entirely for the packet (one
`skipping_invalid_condition_group` signal), staging only the dedupe updates.
Returns the evaluation results, the handler with its staged (uncommitted)
updates, and the telemetry signals. -/
def StatefulDetectorHandler.evaluate {P : Type} (h : StatefulDetectorHandler P)
    (store : StateStore) (data_packet : DataPacket P) :
    List DetectorEvaluationResult × StatefulDetectorHandler P × List String :=
  let dedupe_value := h.get_dedupe_value data_packet
  let group_values := h.get_group_key_values data_packet
  let state_map := h.get_state_data store (group_values.map Prod.fst)
  match h.condition_group with
  | none =>
    let out := StatefulDetectorHandler.stageDedupes h state_map dedupe_value group_values
    ([], out.1, out.2 ++ ["skipping_invalid_condition_group"])
  | some _ => StatefulDetectorHandler.evalGroupKeys h state_map dedupe_value group_values

/-- Modelled from the spec: a registered group type — its slug and, when
present, the detector handler implementation the Dispatcher binds to a
detector at evaluation time. -/
structure GroupType (T : Type) where
  slug : String
  detector_handler : Option (Detector → DataPacket T → List DetectorEvaluationResult)

/-- Modelled from the spec: per-detector resolution through the Detector
Registry — an unknown type slug and a registered type lacking a handler are
key-not-found conditions surfaced as named error logs, never an exception. -/
def resolve_detector {T : Type} (registry : List (String × GroupType T))
    (d : Detector) :
    Except String (Detector → DataPacket T → List DetectorEvaluationResult) :=
  match alistGet registry d.type with
  | none => .error "No registered grouptype for detector"
  | some gt =>
    match gt.detector_handler with
    | none => .error "Registered grouptype for detector has no detector_handler"
    | some handler => .ok handler

/-- Modelled from the spec: the Detector Dispatcher — for each detector,
resolve its handler (logging and omitting the detector on a missing registry
entry), evaluate the packet, flag duplicated result group keys with one
`Duplicate detector state group keys found` error log, and aggregate the
`(detector, results)` pairs.  Returns the pairs and the error logs. -/
def process_detectors {T : Type} (registry : List (String × GroupType T))
    (data_packet : DataPacket T) :
    List Detector → List (Detector × List DetectorEvaluationResult) × List String
  | [] => ([], [])
  | d :: rest =>
    let outs := process_detectors registry data_packet rest
    match resolve_detector registry d with
    | .error e => (outs.1, e :: outs.2)
    | .ok handler =>
      let results := handler d data_packet
      let dupe_logs :=
        if (results.map DetectorEvaluationResult.group_key).Nodup then []
        else ["Duplicate detector state group keys found"]
      ((d, results) :: outs.1, dupe_logs ++ outs.2)

/-- `MetricAlertFire.type_id` (src/sentry/incidents/grouptype.py). -/
def MetricAlertFire.type_id : Nat := 8001

/-- `MetricAlertDetectorHandler.build_occurrence_and_event_data`
(src/sentry/incidents/grouptype.py): a placeholder occurrence and event-data
pair; the wall-clock `datetime.now` instant is the explicit `now` parameter.
The `group_key` and `value` arguments are accepted and ignored, as in the
source. -/
def MetricAlertDetectorHandler.build_occurrence_and_event_data (now : Nat)
    (group_key : Option String) (value : Int) (new_status : PriorityLevel) :
    IssueOccurrence × EventData :=
  let occurrence : IssueOccurrence :=
    { id := "eb4b0acffadb4d098d48cb14165ab578"
      project_id := 123
      event_id := "43878ab4419f4ab181f6379ac376d5aa"
      fingerprint := ["abc123"]
      issue_title := "Some Issue"
      subtitle := "Some subtitle"
      resource_id := none
      evidence_data := []
      evidence_display := []
      type_id := MetricAlertFire.type_id
      detection_time := now
      level := "error"
      culprit := "Some culprit"
      initial_issue_priority := new_status.value }
  let event_data : EventData :=
    { timestamp := occurrence.detection_time
      project_id := occurrence.project_id
      event_id := occurrence.event_id
      platform := "python"
      received := occurrence.detection_time
      tags := [] }
  (occurrence, event_data)

/-- `MetricAlertDetectorHandler.evaluate` (src/sentry/incidents/grouptype.py):
ignores the packet and any prior state and returns the single hardcoded
`"foo"`-keyed result. -/
def MetricAlertDetectorHandler.evaluate {Q : Type} (now : Nat)
    (data_packet : DataPacket Q) :
    List (Option String × DetectorEvaluationResult) :=
  let oe := MetricAlertDetectorHandler.build_occurrence_and_event_data now
    (some "foo") 0 .high
  [(some "foo",
    { group_key := some "foo"
      is_active := true
      priority := DetectorPriorityLevel.high
      result := some oe.1
      event_data := some oe.2 })]

/-- `MetricAlertDetectorHandler.counter_names`: empty placeholder. -/
def MetricAlertDetectorHandler.counter_names : List String := []

/-- `MetricAlertDetectorHandler.get_dedupe_value`: constant 0 placeholder. -/
def MetricAlertDetectorHandler.get_dedupe_value {Q : Type}
    (data_packet : DataPacket Q) : Int := 0

/-- `MetricAlertDetectorHandler.get_group_key_values`: constantly the single
pair `("foo", 0)`. -/
def MetricAlertDetectorHandler.get_group_key_values {Q : Type}
    (data_packet : DataPacket Q) : List (Option String × Int) := [(some "foo", 0)]

/-- The payload shape used by the test suite's `MockDetectorStateHandler`:
a dedupe counter and per-group values. -/
structure MockPacket where
  dedupe : Int
  group_vals : List (Option String × Int)

/-- The test suite's `MockDetectorStateHandler`: counters `test1`/`test2`,
dedupe and group values read straight off the packet
(tests/sentry/workflow_engine/processors/test_detector.py), with empty
staging buffers. -/
def mockHandler (d : Detector) : StatefulDetectorHandler MockPacket :=
  { detector := d
    counter_names := ["test1", "test2"]
    get_dedupe_value := fun p => p.packet.dedupe
    get_group_key_values := fun p => p.packet.group_vals
    dedupe_updates := []
    counter_updates := []
    state_updates := [] }

/-- A detector with one always-matching HIGH condition, standing in for the
test fixtures (`create_detector` plus `create_data_condition`). -/
def testDetector : Detector :=
  { id := 123
    type := "handler_with_state"
    workflow_condition_group := some [⟨.gt, -1, .high⟩] }

/-- A detector with no condition group configured. -/
def bareDetector : Detector :=
  { id := 123
    type := "handler_with_state"
    workflow_condition_group := none }

/-- The empty State Store: no durable records, an empty cache. -/
def emptyStore : StateStore :=
  { durable := fun _ _ => none
    cache := fun _ => none }

/-- The dispatcher tests' stateless multi-group mock handler: one HIGH/active
result per `group_keys` entry of the packet
(tests/sentry/workflow_engine/processors/test_detector.py). -/
def mockStateResultsHandler :
    Detector → DataPacket (List (Option String)) → List DetectorEvaluationResult :=
  fun _ p => p.packet.map fun k => ⟨k, true, .high, none, none⟩

/-- The registry of the dispatcher scenarios: `handler_with_state` maps to the
multi-group mock, `no_handler` is registered without a handler. -/
def mockRegistry : List (String × GroupType (List (Option String))) :=
  [("handler_with_state", ⟨"handler_with_state", some mockStateResultsHandler⟩),
   ("no_handler", ⟨"no_handler", none⟩)]

/-- A store whose cache already holds the committed dedupe value 2 for the
`val1` group key of detector 123. -/
def storeVal1Dedupe2 : StateStore :=
  { durable := fun _ _ => none
    cache := fun s => if s = "123:val1:dedupe_value" then some 2 else none }

/-- Association-list lookup after an insert at the same key. -/
theorem alistGet_set_self {K V : Type} [DecidableEq K] :
    ∀ (l : List (K × V)) (k : K) (v : V), alistGet (alistSet l k v) k = some v
  | [], k, v => by simp [alistSet, alistGet]
  | (k₀, v₀) :: rest, k, v => by
    by_cases hk : k = k₀
    · simp [alistSet, alistGet, hk]
    · simp [alistSet, alistGet, hk, alistGet_set_self rest k v]

/-- Association-list lookup after an insert at a different key. -/
theorem alistGet_set_ne {K V : Type} [DecidableEq K] :
    ∀ (l : List (K × V)) (k k' : K) (v : V), k' ≠ k →
      alistGet (alistSet l k v) k' = alistGet l k'
  | [], k, k', v, hne => by simp [alistSet, alistGet, hne]
  | (k₀, v₀) :: rest, k, k', v, hne => by
    by_cases hk : k = k₀
    · subst hk
      simp [alistSet, alistGet, hne]
    · simp only [alistSet, if_neg hk, alistGet]
      rw [alistGet_set_ne rest k k' v hne]

/-- Lookup in an association list built by tagging each key of a list. -/
theorem alistGet_map_self {K V : Type} [DecidableEq K] (f : K → V) :
    ∀ (l : List K) (k : K), k ∈ l →
      alistGet (l.map fun x => (x, f x)) k = some (f k)
  | [], k, hmem => absurd hmem (List.not_mem_nil k)
  | g :: gs, k, hmem => by
    by_cases hk : k = g
    · subst hk
      simp [alistGet]
    · have hmem' : k ∈ gs := by
        cases List.mem_cons.mp hmem with
        | inl h0 => exact absurd h0 hk
        | inr h0 => exact h0
      simp [alistGet, hk, alistGet_map_self f gs k hmem']

/-- `get_state_data` looks up to the per-key materialized record. -/
theorem get_state_data_lookup {P : Type} (h : StatefulDetectorHandler P)
    (store : StateStore) (group_keys : List (Option String)) (k : Option String)
    (hmem : k ∈ group_keys) :
    alistGet (h.get_state_data store group_keys) k
      = some (h.state_for_key store k) :=
  alistGet_map_self (fun x => h.state_for_key store x) group_keys k hmem

/-- C4: `get_state_data` never fails with "not found": every requested key is
mapped; and a never-seen key (no durable record, no cached dedupe or counter
entries) is mapped to the default state — the requested key, inactive, OK,
dedupe 0, every declared counter null — also in batched calls mixing
committed and never-seen keys. -/
theorem c4_get_state_data_default {P : Type} (h : StatefulDetectorHandler P)
    (store : StateStore) (group_keys : List (Option String)) (k : Option String)
    (hmem : k ∈ group_keys)
    (hdur : store.durable h.detector.id k = none)
    (hded : store.cache (h.build_dedupe_value_key k) = none)
    (hcnt : ∀ n ∈ h.counter_names,
      store.cache (h.build_counter_value_key k n) = none) :
    (∀ k' ∈ group_keys, (alistGet (h.get_state_data store group_keys) k').isSome) ∧
    alistGet (h.get_state_data store group_keys) k
      = some { group_key := k, active := false, status := .ok, dedupe_value := 0,
               counter_updates := h.counter_names.map fun n => (n, none) } := by
  constructor
  · intro k' hk'
    rw [get_state_data_lookup h store group_keys k' hk']
    rfl
  · rw [get_state_data_lookup h store group_keys k hmem]
    have hc : (h.counter_names.map fun n =>
          (n, store.cache (h.build_counter_value_key k n)))
        = h.counter_names.map fun n => (n, (none : Option Int)) :=
      List.map_congr_left (fun n hn => by rw [hcnt n hn])
    simp [StatefulDetectorHandler.state_for_key, hdur, hded, hc]

/-- C4 witness: the default state on a never-seen key at the concrete mock
handler (counters `test1`, `test2`) and the empty store. -/
theorem c4_get_state_data_default_witness :
    ((some "test_key" : Option String) ∈ [(some "test_key" : Option String)]) ∧
    alistGet ((mockHandler testDetector).get_state_data emptyStore
        [some "test_key"]) (some "test_key")
      = some { group_key := some "test_key", active := false, status := .ok,
               dedupe_value := 0,
               counter_updates := [("test1", none), ("test2", none)] } :=
  ⟨List.mem_singleton.mpr rfl,
    (c4_get_state_data_default (mockHandler testDetector) emptyStore
      [some "test_key"] (some "test_key") (List.mem_singleton.mpr rfl) rfl rfl
      (fun _ _ => rfl)).2⟩

/-- C10: `MetricAlertDetectorHandler.evaluate` returns the same single-entry
output — one result keyed "foo" with `is_active = true` and priority HIGH —
independent of the packet's contents (it consults no prior committed state at
all); `get_dedupe_value` is constantly 0 and no counters are declared, so any
two input packets evaluate to equal outputs. -/
theorem c10_metric_alert_constant {Q R : Type} (now : Nat) (p : DataPacket Q)
    (q : DataPacket R) :
    MetricAlertDetectorHandler.evaluate now p
        = MetricAlertDetectorHandler.evaluate now q ∧
    (MetricAlertDetectorHandler.evaluate now p).map
        (fun kv => (kv.1, kv.2.group_key, kv.2.is_active, kv.2.priority))
        = [(some "foo", some "foo", true, DetectorPriorityLevel.high)] ∧
    MetricAlertDetectorHandler.get_dedupe_value p = 0 ∧
    MetricAlertDetectorHandler.counter_names = [] := by
  exact ⟨rfl, rfl, rfl, rfl⟩

/-- Left-cancellation for string append. -/
theorem string_append_left_cancel {p a b : String} (h : p ++ a = p ++ b) :
    a = b := by
  have hd := congrArg String.data h
  simp only [String.data_append] at hd
  exact String.ext (List.append_cancel_left hd)

/-- Counter cache keys of one (detector, group key) pair are distinct for
distinct counter names. -/
theorem build_counter_value_key_inj {P : Type} (h : StatefulDetectorHandler P)
    (k : Option String) (a b : String)
    (heq : h.build_counter_value_key k a = h.build_counter_value_key k b) :
    a = b :=
  string_append_left_cancel heq

/-- The counter cache key of a counter not named `dedupe_value` differs from
the group key's dedupe cache key. -/
theorem counter_key_ne_dedupe_key {P : Type} (h : StatefulDetectorHandler P)
    (k : Option String) (n : String) (hn : n ≠ "dedupe_value") :
    h.build_counter_value_key k n ≠ h.build_dedupe_value_key k := by
  intro heq
  exact hn (string_append_left_cancel heq)

/-- A per-counter cache write fold leaves untouched keys unchanged. -/
theorem counterFold_ne (key : String → String) :
    ∀ (vals : List (String × Option Int)) (c : String → Option Int) (t : String),
      (∀ nv ∈ vals, key nv.1 ≠ t) →
      (vals.foldl (fun c' nv => cacheSet c' (key nv.1) nv.2) c) t = c t
  | [], _, _, _ => rfl
  | nv₀ :: rest, c, t, hne => by
    simp only [List.foldl_cons]
    rw [counterFold_ne key rest _ t (fun nv hnv => hne nv (List.mem_cons_of_mem _ hnv))]
    have ht : t ≠ key nv₀.1 := (hne nv₀ (List.mem_cons_self _ _)).symm
    simp [cacheSet, ht]

/-- After a per-counter cache write fold with pairwise-distinct names, each
written key holds exactly its staged value. -/
theorem counterFold_get (key : String → String)
    (hinj : ∀ a b, key a = key b → a = b) :
    ∀ (vals : List (String × Option Int)) (c : String → Option Int) (n : String)
      (u : Option Int), (n, u) ∈ vals → (vals.map Prod.fst).Nodup →
      (vals.foldl (fun c' nv => cacheSet c' (key nv.1) nv.2) c) (key n) = u
  | [], _, _, _, hmem, _ => absurd hmem (List.not_mem_nil _)
  | (n₀, u₀) :: rest, c, n, u, hmem, hnodup => by
    have hnodup' : n₀ ∉ rest.map Prod.fst ∧ (rest.map Prod.fst).Nodup := by
      rw [List.map_cons] at hnodup
      exact List.nodup_cons.mp hnodup
    simp only [List.foldl_cons]
    by_cases hn : n = n₀
    · subst hn
      have hu : u = u₀ := by
        rcases List.mem_cons.mp hmem with h0 | h0
        · exact (Prod.mk.injEq _ _ _ _ ▸ h0).2
        · exact absurd (List.mem_map_of_mem Prod.fst h0) hnodup'.1
      subst hu
      rw [counterFold_ne key rest _ (key n) ?_]
      · simp [cacheSet]
      · intro nv hnv heq
        exact hnodup'.1 (hinj nv.1 n heq ▸ List.mem_map_of_mem Prod.fst hnv)
    · have hmem' : (n, u) ∈ rest := by
        rcases List.mem_cons.mp hmem with h0 | h0
        · exact absurd (congrArg Prod.fst h0) hn
        · exact h0
      exact counterFold_get key hinj rest _ n u hmem' hnodup'.2

/-- Rebuilding an association list from its keys through a faithful reader
gives back the list. -/
theorem map_lookup_eq_self :
    ∀ (vals : List (String × Option Int)) (g : String → Option Int),
      (∀ n u, (n, u) ∈ vals → g n = u) →
      ((vals.map Prod.fst).map fun n => (n, g n)) = vals
  | [], _, _ => rfl
  | (n₀, u₀) :: rest, g, hg => by
    simp only [List.map_cons]
    rw [hg n₀ u₀ (List.mem_cons_self _ _), map_lookup_eq_self rest g
      (fun n u hnu => hg n u (List.mem_cons_of_mem _ hnu))]

/-- C5: the commit/read round-trip is the identity on staged state: for every
group key and staged dedupe value, counter values (one per declared counter),
and `(active, status)` pair, `enqueue_dedupe_update`, `enqueue_counter_update`,
`enqueue_state_update`, `commit_state_updates` followed by `get_state_data`
for that key returns exactly the staged values. -/
theorem c5_commit_round_trip {P : Type} (h : StatefulDetectorHandler P)
    (store : StateStore) (k : Option String) (d : Int)
    (vals : List (String × Option Int)) (a : Bool) (s : DetectorPriorityLevel)
    (hde : h.dedupe_updates = []) (hcu : h.counter_updates = [])
    (hsu : h.state_updates = [])
    (hnames : vals.map Prod.fst = h.counter_names)
    (hnodup : (vals.map Prod.fst).Nodup)
    (hdd : "dedupe_value" ∉ vals.map Prod.fst) :
    alistGet
        (((((h.enqueue_dedupe_update k d).enqueue_counter_update k
                  vals).enqueue_state_update k a s).commit_state_updates
              store).1.get_state_data
          ((((h.enqueue_dedupe_update k d).enqueue_counter_update k
                vals).enqueue_state_update k a s).commit_state_updates store).2
          [k]) k
      = some { group_key := k, active := a, status := s, dedupe_value := d,
               counter_updates := vals } := by
  obtain ⟨det, cns, fdv, fgv, du, cu, su⟩ := h
  simp only at hde hcu hsu
  subst hde hcu hsu
  rw [get_state_data_lookup _ _ [k] k (List.mem_singleton.mpr rfl)]
  simp only [StatefulDetectorHandler.enqueue_dedupe_update,
    StatefulDetectorHandler.enqueue_counter_update,
    StatefulDetectorHandler.enqueue_state_update,
    StatefulDetectorHandler.commit_state_updates, alistSet, List.foldl_cons,
    List.foldl_nil, StatefulDetectorHandler.state_for_key,
    StatefulDetectorHandler.build_counter_value_key,
    StatefulDetectorHandler.build_dedupe_value_key]
  simp only at hnames
  subst hnames
  have hinj : ∀ x y : String,
      Nat.repr det.id ++ ":" ++ groupKeyStr k ++ ":" ++ x
        = Nat.repr det.id ++ ":" ++ groupKeyStr k ++ ":" ++ y → x = y :=
    fun x y hxy => string_append_left_cancel hxy
  have h1 := counterFold_get
    (fun x => Nat.repr det.id ++ ":" ++ groupKeyStr k ++ ":" ++ x) hinj vals
    (cacheSet store.cache
      (Nat.repr det.id ++ ":" ++ groupKeyStr k ++ ":" ++ "dedupe_value") (some d))
  have h2 := counterFold_ne
    (fun x => Nat.repr det.id ++ ":" ++ groupKeyStr k ++ ":" ++ x) vals
    (cacheSet store.cache
      (Nat.repr det.id ++ ":" ++ groupKeyStr k ++ ":" ++ "dedupe_value") (some d))
    (Nat.repr det.id ++ ":" ++ groupKeyStr k ++ ":" ++ "dedupe_value")
    (fun nv hnv heq => hdd (hinj nv.1 _ heq ▸ List.mem_map_of_mem Prod.fst hnv))
  have h3 := map_lookup_eq_self vals
    (fun n =>
      (vals.foldl
          (fun c' nv =>
            cacheSet c' (Nat.repr det.id ++ ":" ++ groupKeyStr k ++ ":" ++ nv.1) nv.2)
          (cacheSet store.cache
            (Nat.repr det.id ++ ":" ++ groupKeyStr k ++ ":" ++ "dedupe_value")
            (some d)))
        (Nat.repr det.id ++ ":" ++ groupKeyStr k ++ ":" ++ n))
    (fun n u hnu => h1 n u hnu hnodup)
  refine congrArg some ?_
  simp only [DetectorStateData.mk.injEq]
  refine ⟨trivial, by simp, by simp, ?_, ?_⟩
  · rw [h2]
    simp [cacheSet]
  · exact h3

/-- C5 witness: the concrete round-trip of the test — dedupe 10, counters
`test1 = 5`, `test2 = 200`, state `(active, OK)` — staged, committed and read
back unchanged at the mock handler over the empty store. -/
theorem c5_commit_round_trip_witness :
    (mockHandler testDetector).dedupe_updates = [] ∧
    ([("test1", some 5), ("test2", some (200 : Int))].map Prod.fst
        = (mockHandler testDetector).counter_names) ∧
    alistGet
        ((((((mockHandler testDetector).enqueue_dedupe_update (some "test_key")
                      10).enqueue_counter_update (some "test_key")
                  [("test1", some 5), ("test2", some 200)]).enqueue_state_update
                (some "test_key") true .ok).commit_state_updates emptyStore).1.get_state_data
          (((((mockHandler testDetector).enqueue_dedupe_update (some "test_key")
                    10).enqueue_counter_update (some "test_key")
                [("test1", some 5), ("test2", some 200)]).enqueue_state_update
              (some "test_key") true .ok).commit_state_updates emptyStore).2
          [some "test_key"]) (some "test_key")
      = some { group_key := some "test_key", active := true, status := .ok,
               dedupe_value := 10,
               counter_updates := [("test1", some 5), ("test2", some 200)] } :=
  ⟨rfl, rfl,
    c5_commit_round_trip (mockHandler testDetector) emptyStore (some "test_key")
      10 [("test1", some 5), ("test2", some 200)] true .ok rfl rfl rfl rfl
      (by decide) (by decide)⟩

/-- C6: within one commit each staged counter acts independently — a null
staged value removes that counter's cache entry (the key no longer exists, so
a subsequent read returns null), while an integer staged value sets the cache
entry to exactly that integer. -/
theorem c6_counter_clearing {P : Type} (h : StatefulDetectorHandler P)
    (store : StateStore) (k : Option String)
    (vals : List (String × Option Int)) (n : String) (u : Option Int)
    (hde : h.dedupe_updates = []) (hsu : h.state_updates = [])
    (hcu : h.counter_updates = [(k, vals)])
    (hmem : (n, u) ∈ vals) (hnodup : (vals.map Prod.fst).Nodup) :
    ((h.commit_state_updates store).2).cache (h.build_counter_value_key k n)
      = u := by
  obtain ⟨det, cns, fdv, fgv, du, cu, su⟩ := h
  simp only at hde hcu hsu
  subst hde hcu hsu
  simp only [StatefulDetectorHandler.commit_state_updates, List.foldl_cons,
    List.foldl_nil, StatefulDetectorHandler.build_counter_value_key]
  have hinj : ∀ x y : String,
      Nat.repr det.id ++ ":" ++ groupKeyStr k ++ ":" ++ x
        = Nat.repr det.id ++ ":" ++ groupKeyStr k ++ ":" ++ y → x = y :=
    fun x y hxy => string_append_left_cancel hxy
  exact counterFold_get
    (fun x => Nat.repr det.id ++ ":" ++ groupKeyStr k ++ ":" ++ x) hinj vals
    store.cache n u hmem hnodup

/-- C6 witness: the test's second commit — `some_counter` staged null is
removed from the cache, `another_counter` staged 20 reads back 20 — at the
mock handler with a pre-populated cache. -/
theorem c6_counter_clearing_witness :
    (("some_counter", (none : Option Int))
        ∈ [("some_counter", (none : Option Int)), ("another_counter", some 20)]) ∧
    ((StatefulDetectorHandler.commit_state_updates
        { mockHandler testDetector with
            counter_updates :=
              [(none, [("some_counter", none), ("another_counter", some 20)])] }
        { durable := fun _ _ => none
          cache := fun s => if s = "123:None:some_counter" then some 1 else none }).2).cache
        ((mockHandler testDetector).build_counter_value_key none "some_counter")
      = none :=
  ⟨by decide,
    c6_counter_clearing
      { mockHandler testDetector with
          counter_updates :=
            [(none, [("some_counter", none), ("another_counter", some 20)])] }
      { durable := fun _ _ => none
        cache := fun s => if s = "123:None:some_counter" then some 1 else none }
      none [("some_counter", none), ("another_counter", some 20)]
      "some_counter" none rfl rfl rfl (by decide) (by decide)⟩

/-- C3 counterexample: after `evaluate` of the packet (dedupe 2, `val1` = 0)
at the mock handler over the empty store, the staged updates are still
sitting in the handler's buffers — a commit would have cleared them — and a
`get_state_data` read against the store still returns the untouched default:
`evaluate` flushed nothing to the State Store. -/
theorem c3_evaluate_commits_counterexample :
    ((mockHandler testDetector).evaluate emptyStore
        ⟨"1", ⟨2, [(some "val1", 0)]⟩⟩).2.1.dedupe_updates = [(some "val1", 2)] ∧
    ((mockHandler testDetector).evaluate emptyStore
        ⟨"1", ⟨2, [(some "val1", 0)]⟩⟩).2.1.state_updates
      = [(some "val1", (true, .high))] ∧
    alistGet
        (((mockHandler testDetector).evaluate emptyStore
            ⟨"1", ⟨2, [(some "val1", 0)]⟩⟩).2.1.get_state_data emptyStore
          [some "val1"]) (some "val1")
      = some { group_key := some "val1", active := false, status := .ok,
               dedupe_value := 0,
               counter_updates := [("test1", none), ("test2", none)] } := by
  refine ⟨rfl, rfl, rfl⟩

/-- C3 (amended): `evaluate` only stages updates; the staged dedupe, counter
and state updates are flushed to the State Store by the separate
`commit_state_updates` call the caller must make, which persists them all in
that one call — a following `get_state_data` sees exactly the evaluated
outcome — and clears the staging buffers. -/
theorem c3_commit_after_evaluate :
    (let out := (mockHandler testDetector).evaluate emptyStore
        ⟨"1", ⟨2, [(some "val1", 0)]⟩⟩
     let hs := out.2.1.commit_state_updates emptyStore
     hs.1.dedupe_updates = [] ∧ hs.1.counter_updates = [] ∧
     hs.1.state_updates = [] ∧
     alistGet (hs.1.get_state_data hs.2 [some "val1"]) (some "val1")
       = some { group_key := some "val1", active := true, status := .high,
                dedupe_value := 2,
                counter_updates := [("test1", none), ("test2", none)] }) := by
  refine ⟨rfl, rfl, rfl, ?_⟩
  decide

/-- C7: a packet enumerating the same group key more than once does not crash
the dispatcher: every occurrence is evaluated independently against the same
prior snapshot — equal keys yield identical results — all results are
returned, duplicates included, and exactly one
`Duplicate detector state group keys found` error log fires. -/
theorem c7_duplicate_group_keys (gks : List (Option String)) (d : Detector)
    (qid : String) (hd : d.type = "handler_with_state") (hdup : ¬ gks.Nodup) :
    process_detectors mockRegistry ⟨qid, gks⟩ [d]
      = ([(d, gks.map fun k => ⟨k, true, .high, none, none⟩)],
         ["Duplicate detector state group keys found"]) := by
  have hkeys : ((gks.map fun k =>
        (⟨k, true, .high, none, none⟩ : DetectorEvaluationResult)).map
          DetectorEvaluationResult.group_key) = gks := by
    rw [List.map_map]
    exact List.map_id gks
  have hres : resolve_detector mockRegistry d = .ok mockStateResultsHandler := by
    simp [resolve_detector, hd, mockRegistry, alistGet]
  simp only [process_detectors, hres, mockStateResultsHandler, hkeys,
    List.append_nil]
  rw [if_neg hdup]

/-- C7 witness: the concrete packet of the test — group keys
`["dupe", "dupe"]` — yields the two identical results and the single
duplicate-key error log. -/
theorem c7_duplicate_group_keys_witness :
    (testDetector.type = "handler_with_state") ∧
    ¬ ([some "dupe", some "dupe"] : List (Option String)).Nodup ∧
    process_detectors mockRegistry ⟨"1234", [some "dupe", some "dupe"]⟩
        [testDetector]
      = ([(testDetector,
            [⟨some "dupe", true, .high, none, none⟩,
             ⟨some "dupe", true, .high, none, none⟩])],
         ["Duplicate detector state group keys found"]) :=
  ⟨rfl, by decide,
    c7_duplicate_group_keys [some "dupe", some "dupe"] testDetector "1234" rfl
      (by decide)⟩

/-- C8: a detector with an unregistered type slug, or a registered type
lacking a handler, raises nothing: `process_detectors` logs the corresponding
named error, omits that detector's entry from the result list, and processes
the sibling detectors before and after it exactly as if it were absent. -/
theorem c8_missing_registry_entries {T : Type}
    (registry : List (String × GroupType T)) (data_packet : DataPacket T)
    (ds₁ ds₂ : List Detector) (d : Detector) (e : String)
    (herr : resolve_detector registry d = .error e) :
    (e = "No registered grouptype for detector" ∨
      e = "Registered grouptype for detector has no detector_handler") ∧
    process_detectors registry data_packet (ds₁ ++ d :: ds₂)
      = ((process_detectors registry data_packet ds₁).1
            ++ (process_detectors registry data_packet ds₂).1,
         (process_detectors registry data_packet ds₁).2
            ++ e :: (process_detectors registry data_packet ds₂).2) := by
  constructor
  · revert herr
    unfold resolve_detector
    rcases alistGet registry d.type with _ | gt
    · intro herr
      have herr' : (Except.error "No registered grouptype for detector"
          : Except String (Detector → DataPacket T → List DetectorEvaluationResult))
          = Except.error e := herr
      injection herr' with h0
      exact Or.inl h0.symm
    · obtain ⟨slug, dh⟩ := gt
      rcases dh with _ | f
      · intro herr
        have herr' : (Except.error
            "Registered grouptype for detector has no detector_handler"
            : Except String (Detector → DataPacket T → List DetectorEvaluationResult))
            = Except.error e := herr
        injection herr' with h0
        exact Or.inr h0.symm
      · intro herr
        have herr' : (Except.ok f
            : Except String (Detector → DataPacket T → List DetectorEvaluationResult))
            = Except.error e := herr
        exact Except.noConfusion herr'
  · induction ds₁ with
    | nil => simp [process_detectors, herr]
    | cons d₀ ds₁ ih =>
      rcases hr : resolve_detector registry d₀ with e₀ | f
      · simp [process_detectors, hr, ih]
      · simp [process_detectors, hr, ih]

/-- C8 witness: a detector with the unregistered slug `invalid slug`, alone in
the call, is omitted and logged with the named error. -/
theorem c8_missing_registry_entries_witness :
    (resolve_detector mockRegistry
        { id := 1, type := "invalid slug", workflow_condition_group := none }
      = .error "No registered grouptype for detector") ∧
    (("No registered grouptype for detector"
        = "No registered grouptype for detector" ∨
      "No registered grouptype for detector"
        = "Registered grouptype for detector has no detector_handler") ∧
    process_detectors mockRegistry ⟨"1234", [some "dupe"]⟩
        ([] ++ { id := 1, type := "invalid slug",
                 workflow_condition_group := none } :: [])
      = ((process_detectors mockRegistry ⟨"1234", [some "dupe"]⟩ []).1
            ++ (process_detectors mockRegistry ⟨"1234", [some "dupe"]⟩ []).1,
         (process_detectors mockRegistry ⟨"1234", [some "dupe"]⟩ []).2
            ++ "No registered grouptype for detector"
              :: (process_detectors mockRegistry ⟨"1234", [some "dupe"]⟩ []).2)) :=
  ⟨rfl,
    c8_missing_registry_entries mockRegistry ⟨"1234", [some "dupe"]⟩ [] []
      { id := 1, type := "invalid slug", workflow_condition_group := none }
      "No registered grouptype for detector" rfl⟩

/-- The dedupe value a fold step reads from the snapshot is independent of
the handler's default record. -/
theorem sd_dedupe_eval {P : Type} (h : StatefulDetectorHandler P)
    (sm : List (Option String × DetectorStateData)) (k : Option String) :
    ((alistGet sm k).getD (h.default_state_data k)).dedupe_value
      = ((alistGet sm k).map DetectorStateData.dedupe_value).getD 0 := by
  cases alistGet sm k <;> rfl

/-- A stale dedupe value short-circuits the per-key state machine: no result,
no staging, one skip signal. -/
theorem egkv_stale {P : Type} (h : StatefulDetectorHandler P) (k : Option String)
    (v : Int) (sd : DetectorStateData) (d : Int) (hle : d ≤ sd.dedupe_value) :
    h.evaluate_group_key_value k v sd d
      = (none, h, ["skipping_already_processed_update"]) := by
  simp [StatefulDetectorHandler.evaluate_group_key_value, hle]

/-- A fresh step always stages the dedupe value for its group key. -/
theorem egkv_fresh_dedupe {P : Type} (h : StatefulDetectorHandler P)
    (k : Option String) (v : Int) (sd : DetectorStateData) (d : Int)
    (hgt : ¬ d ≤ sd.dedupe_value) :
    alistGet (h.evaluate_group_key_value k v sd d).2.1.dedupe_updates k
      = some d := by
  simp only [StatefulDetectorHandler.evaluate_group_key_value, if_neg hgt]
  split
  · exact alistGet_set_self _ _ _
  · split
    · exact alistGet_set_self _ _ _
    · exact alistGet_set_self _ _ _

/-- A step leaves every other group key's staged entries unchanged. -/
theorem egkv_frame {P : Type} (h : StatefulDetectorHandler P) (k : Option String)
    (v : Int) (sd : DetectorStateData) (d : Int) (k' : Option String)
    (hne : k' ≠ k) :
    alistGet (h.evaluate_group_key_value k v sd d).2.1.dedupe_updates k'
        = alistGet h.dedupe_updates k' ∧
    alistGet (h.evaluate_group_key_value k v sd d).2.1.counter_updates k'
        = alistGet h.counter_updates k' ∧
    alistGet (h.evaluate_group_key_value k v sd d).2.1.state_updates k'
        = alistGet h.state_updates k' := by
  simp only [StatefulDetectorHandler.evaluate_group_key_value]
  split
  · exact ⟨rfl, rfl, rfl⟩
  · split
    · exact ⟨alistGet_set_ne _ _ _ _ hne, rfl, rfl⟩
    · split
      · exact ⟨alistGet_set_ne _ _ _ _ hne, alistGet_set_ne _ _ _ _ hne, rfl⟩
      · exact ⟨alistGet_set_ne _ _ _ _ hne, alistGet_set_ne _ _ _ _ hne,
          alistGet_set_ne _ _ _ _ hne⟩

/-- Every result a step emits carries that step's group key. -/
theorem egkv_result_key {P : Type} (h : StatefulDetectorHandler P)
    (k : Option String) (v : Int) (sd : DetectorStateData) (d : Int) :
    ∀ r ∈ (h.evaluate_group_key_value k v sd d).1.toList, r.group_key = k := by
  simp only [StatefulDetectorHandler.evaluate_group_key_value]
  split
  · simp
  · split
    · simp
    · split
      · simp
      · intro r hr
        simp only [Option.toList_some, List.mem_singleton] at hr
        subst hr
        rfl

/-- The fold never touches staged entries of a group key outside the packet
and never emits a result for it. -/
theorem egks_frame {P : Type} (sm : List (Option String × DetectorStateData))
    (d : Int) (k : Option String) :
    ∀ (l : List (Option String × Int)) (h : StatefulDetectorHandler P),
      k ∉ l.map Prod.fst →
      (∀ r ∈ (StatefulDetectorHandler.evalGroupKeys h sm d l).1,
          r.group_key ≠ k) ∧
      alistGet (StatefulDetectorHandler.evalGroupKeys h sm d l).2.1.dedupe_updates k
          = alistGet h.dedupe_updates k ∧
      alistGet (StatefulDetectorHandler.evalGroupKeys h sm d l).2.1.counter_updates k
          = alistGet h.counter_updates k ∧
      alistGet (StatefulDetectorHandler.evalGroupKeys h sm d l).2.1.state_updates k
          = alistGet h.state_updates k
  | [], h, _ => by simp [StatefulDetectorHandler.evalGroupKeys]
  | (k₀, v) :: rest, h, hk => by
    have hcons : k ∉ k₀ :: rest.map Prod.fst := by simpa using hk
    have hne : k ≠ k₀ := fun he => hcons (by rw [he]; exact List.mem_cons_self _ _)
    have hk' : k ∉ rest.map Prod.fst := fun hm => hcons (List.mem_cons_of_mem _ hm)
    obtain ⟨ihr, ihd, ihc, ihs⟩ := egks_frame sm d k rest
      (h.evaluate_group_key_value k₀ v
        ((alistGet sm k₀).getD (h.default_state_data k₀)) d).2.1 hk'
    obtain ⟨fd, fc, fs⟩ := egkv_frame h k₀ v
      ((alistGet sm k₀).getD (h.default_state_data k₀)) d k hne
    simp only [StatefulDetectorHandler.evalGroupKeys]
    refine ⟨?_, ihd.trans fd, ihc.trans fc, ihs.trans fs⟩
    intro r hr
    rcases List.mem_append.mp hr with hr | hr
    · rw [egkv_result_key h k₀ v ((alistGet sm k₀).getD (h.default_state_data k₀))
        d r hr]
      exact hne.symm
    · exact ihr r hr

/-- A group key whose dedupe value is stale in the snapshot keeps all its
staged entries unchanged through the fold, gets no result, and (when it is in
the packet) triggers the skip signal. -/
theorem egks_stale {P : Type} (sm : List (Option String × DetectorStateData))
    (d : Int) (k : Option String)
    (hstale : d ≤ ((alistGet sm k).map DetectorStateData.dedupe_value).getD 0) :
    ∀ (l : List (Option String × Int)) (h : StatefulDetectorHandler P),
      (∀ r ∈ (StatefulDetectorHandler.evalGroupKeys h sm d l).1,
          r.group_key ≠ k) ∧
      alistGet (StatefulDetectorHandler.evalGroupKeys h sm d l).2.1.dedupe_updates k
          = alistGet h.dedupe_updates k ∧
      alistGet (StatefulDetectorHandler.evalGroupKeys h sm d l).2.1.counter_updates k
          = alistGet h.counter_updates k ∧
      alistGet (StatefulDetectorHandler.evalGroupKeys h sm d l).2.1.state_updates k
          = alistGet h.state_updates k ∧
      (k ∈ l.map Prod.fst →
        "skipping_already_processed_update"
          ∈ (StatefulDetectorHandler.evalGroupKeys h sm d l).2.2)
  | [], h => by simp [StatefulDetectorHandler.evalGroupKeys]
  | (k₀, v) :: rest, h => by
    by_cases hkk : k = k₀
    · subst hkk
      have hsd : d ≤ ((alistGet sm k).getD (h.default_state_data k)).dedupe_value := by
        rw [sd_dedupe_eval]
        exact hstale
      have hstep := egkv_stale h k v
        ((alistGet sm k).getD (h.default_state_data k)) d hsd
      obtain ⟨ihr, ihd, ihc, ihs, iht⟩ := egks_stale sm d k hstale rest h
      simp only [StatefulDetectorHandler.evalGroupKeys, hstep]
      exact ⟨by simpa using ihr, ihd, ihc, ihs,
        fun _ => List.mem_cons_self _ _⟩
    · obtain ⟨ihr, ihd, ihc, ihs, iht⟩ := egks_stale sm d k hstale rest
        (h.evaluate_group_key_value k₀ v
          ((alistGet sm k₀).getD (h.default_state_data k₀)) d).2.1
      obtain ⟨fd, fc, fs⟩ := egkv_frame h k₀ v
        ((alistGet sm k₀).getD (h.default_state_data k₀)) d k hkk
      simp only [StatefulDetectorHandler.evalGroupKeys]
      refine ⟨?_, ihd.trans fd, ihc.trans fc, ihs.trans fs, ?_⟩
      · intro r hr
        rcases List.mem_append.mp hr with hr | hr
        · rw [egkv_result_key h k₀ v
            ((alistGet sm k₀).getD (h.default_state_data k₀)) d r hr]
          exact fun he => hkk he.symm
        · exact ihr r hr
      · intro hm
        have hm2 : k ∈ k₀ :: rest.map Prod.fst := by
          rw [List.map_cons] at hm
          exact hm
        have hm' : k ∈ rest.map Prod.fst := by
          rcases List.mem_cons.mp hm2 with h0 | h0
          · exact absurd h0 hkk
          · exact h0
        exact List.mem_append.mpr (Or.inr (iht hm'))

/-- A group key of the packet whose dedupe value is fresh ends the fold with
its dedupe update staged. -/
theorem egks_fresh {P : Type} (sm : List (Option String × DetectorStateData))
    (d : Int) (k : Option String)
    (hfresh : ¬ d ≤ ((alistGet sm k).map DetectorStateData.dedupe_value).getD 0) :
    ∀ (l : List (Option String × Int)) (h : StatefulDetectorHandler P),
      k ∈ l.map Prod.fst →
      alistGet (StatefulDetectorHandler.evalGroupKeys h sm d l).2.1.dedupe_updates k
        = some d
  | [], h, hk => absurd hk (by simp)
  | (k₀, v) :: rest, h, hk => by
    simp only [StatefulDetectorHandler.evalGroupKeys]
    by_cases hk0 : k ∈ rest.map Prod.fst
    · exact egks_fresh sm d k hfresh rest _ hk0
    · have hk2 : k ∈ k₀ :: rest.map Prod.fst := by
        rw [List.map_cons] at hk
        exact hk
      have hkk : k = k₀ := by
        rcases List.mem_cons.mp hk2 with h0 | h0
        · exact h0
        · exact absurd h0 hk0
      subst hkk
      have hsd : ¬ d ≤ ((alistGet sm k).getD (h.default_state_data k)).dedupe_value := by
        rw [sd_dedupe_eval]
        exact hfresh
      obtain ⟨_, fd, _, _⟩ := egks_frame sm d k rest
        (h.evaluate_group_key_value k v
          ((alistGet sm k).getD (h.default_state_data k)) d).2.1 hk0
      rw [fd]
      exact egkv_fresh_dedupe h k v
        ((alistGet sm k).getD (h.default_state_data k)) d hsd

/-- The dedupe-only fold never touches the counter or state staging buffers. -/
theorem stageDedupes_counter_state {P : Type}
    (sm : List (Option String × DetectorStateData)) (d : Int) :
    ∀ (l : List (Option String × Int)) (h : StatefulDetectorHandler P),
      (StatefulDetectorHandler.stageDedupes h sm d l).1.counter_updates
          = h.counter_updates ∧
      (StatefulDetectorHandler.stageDedupes h sm d l).1.state_updates
          = h.state_updates
  | [], h => ⟨rfl, rfl⟩
  | (k₀, v) :: rest, h => by
    simp only [StatefulDetectorHandler.stageDedupes]
    split
    · exact stageDedupes_counter_state sm d rest h
    · exact stageDedupes_counter_state sm d rest (h.enqueue_dedupe_update k₀ d)

/-- Every signal the dedupe-only fold emits is the skip signal. -/
theorem stageDedupes_tel {P : Type}
    (sm : List (Option String × DetectorStateData)) (d : Int) :
    ∀ (l : List (Option String × Int)) (h : StatefulDetectorHandler P)
      (t : String), t ∈ (StatefulDetectorHandler.stageDedupes h sm d l).2 →
      t = "skipping_already_processed_update"
  | [], h, t => by simp [StatefulDetectorHandler.stageDedupes]
  | (k₀, v) :: rest, h, t => by
    simp only [StatefulDetectorHandler.stageDedupes]
    split
    · intro ht
      rcases List.mem_cons.mp ht with h0 | h0
      · exact h0
      · exact stageDedupes_tel sm d rest h t h0
    · exact stageDedupes_tel sm d rest (h.enqueue_dedupe_update k₀ d) t

/-- The dedupe-only fold leaves keys outside the packet unstaged. -/
theorem stageDedupes_frame {P : Type}
    (sm : List (Option String × DetectorStateData)) (d : Int) (k : Option String) :
    ∀ (l : List (Option String × Int)) (h : StatefulDetectorHandler P),
      k ∉ l.map Prod.fst →
      alistGet (StatefulDetectorHandler.stageDedupes h sm d l).1.dedupe_updates k
        = alistGet h.dedupe_updates k
  | [], h, _ => rfl
  | (k₀, v) :: rest, h, hk => by
    have hcons : k ∉ k₀ :: rest.map Prod.fst := by simpa using hk
    have hne : k ≠ k₀ := fun he => hcons (by rw [he]; exact List.mem_cons_self _ _)
    have hk' : k ∉ rest.map Prod.fst := fun hm => hcons (List.mem_cons_of_mem _ hm)
    simp only [StatefulDetectorHandler.stageDedupes]
    split
    · exact stageDedupes_frame sm d k rest h hk'
    · rw [stageDedupes_frame sm d k rest (h.enqueue_dedupe_update k₀ d) hk']
      exact alistGet_set_ne _ _ _ _ hne

/-- Through the dedupe-only fold, a stale key's staged dedupe entry is
unchanged and (when the key is in the packet) the skip signal fires. -/
theorem stageDedupes_stale {P : Type}
    (sm : List (Option String × DetectorStateData)) (d : Int) (k : Option String)
    (hstale : d ≤ ((alistGet sm k).map DetectorStateData.dedupe_value).getD 0) :
    ∀ (l : List (Option String × Int)) (h : StatefulDetectorHandler P),
      alistGet (StatefulDetectorHandler.stageDedupes h sm d l).1.dedupe_updates k
          = alistGet h.dedupe_updates k ∧
      (k ∈ l.map Prod.fst →
        "skipping_already_processed_update"
          ∈ (StatefulDetectorHandler.stageDedupes h sm d l).2)
  | [], h => ⟨rfl, by simp⟩
  | (k₀, v) :: rest, h => by
    by_cases hkk : k = k₀
    · subst hkk
      have hsd : d ≤ ((alistGet sm k).getD (h.default_state_data k)).dedupe_value := by
        rw [sd_dedupe_eval]
        exact hstale
      simp only [StatefulDetectorHandler.stageDedupes, if_pos hsd]
      obtain ⟨ih1, _⟩ := stageDedupes_stale sm d k hstale rest h
      exact ⟨ih1, fun _ => List.mem_cons_self _ _⟩
    · simp only [StatefulDetectorHandler.stageDedupes]
      split
      · obtain ⟨ih1, ih2⟩ := stageDedupes_stale sm d k hstale rest h
        refine ⟨ih1, fun hm => ?_⟩
        have hm2 : k ∈ k₀ :: rest.map Prod.fst := by
          rw [List.map_cons] at hm
          exact hm
        have hm' : k ∈ rest.map Prod.fst := by
          rcases List.mem_cons.mp hm2 with h0 | h0
          · exact absurd h0 hkk
          · exact h0
        exact List.mem_cons_of_mem _ (ih2 hm')
      · obtain ⟨ih1, ih2⟩ := stageDedupes_stale sm d k hstale rest
          (h.enqueue_dedupe_update k₀ d)
        refine ⟨ih1.trans (alistGet_set_ne _ _ _ _ hkk), fun hm => ?_⟩
        have hm2 : k ∈ k₀ :: rest.map Prod.fst := by
          rw [List.map_cons] at hm
          exact hm
        have hm' : k ∈ rest.map Prod.fst := by
          rcases List.mem_cons.mp hm2 with h0 | h0
          · exact absurd h0 hkk
          · exact h0
        exact ih2 hm'

/-- Through the dedupe-only fold, a fresh key of the packet ends with its
dedupe update staged. -/
theorem stageDedupes_fresh {P : Type}
    (sm : List (Option String × DetectorStateData)) (d : Int) (k : Option String)
    (hfresh : ¬ d ≤ ((alistGet sm k).map DetectorStateData.dedupe_value).getD 0) :
    ∀ (l : List (Option String × Int)) (h : StatefulDetectorHandler P),
      k ∈ l.map Prod.fst →
      alistGet (StatefulDetectorHandler.stageDedupes h sm d l).1.dedupe_updates k
        = some d
  | [], h, hk => absurd hk (by simp)
  | (k₀, v) :: rest, h, hk => by
    simp only [StatefulDetectorHandler.stageDedupes]
    by_cases hk0 : k ∈ rest.map Prod.fst
    · split
      · exact stageDedupes_fresh sm d k hfresh rest h hk0
      · exact stageDedupes_fresh sm d k hfresh rest
          (h.enqueue_dedupe_update k₀ d) hk0
    · have hk2 : k ∈ k₀ :: rest.map Prod.fst := by
        rw [List.map_cons] at hk
        exact hk
      have hkk : k = k₀ := by
        rcases List.mem_cons.mp hk2 with h0 | h0
        · exact h0
        · exact absurd h0 hk0
      subst hkk
      have hsd : ¬ d ≤ ((alistGet sm k).getD (h.default_state_data k)).dedupe_value := by
        rw [sd_dedupe_eval]
        exact hfresh
      rw [if_neg hsd]
      rw [stageDedupes_frame sm d k rest (h.enqueue_dedupe_update k d) hk0]
      exact alistGet_set_self _ _ _

/-- C1: for every evaluation of a data packet and every group key in the
packet — with any condition-group configuration — a dedupe value less than or
equal to the previously committed one skips the key entirely: no evaluation
result for it, no staged update of any kind for it, and the
`skipping_already_processed_update` signal is emitted; a strictly greater
dedupe value is processed (its dedupe update is staged). -/
theorem c1_dedupe_monotonic {P : Type} (h : StatefulDetectorHandler P)
    (store : StateStore) (data_packet : DataPacket P) (k : Option String)
    (hk : k ∈ (h.get_group_key_values data_packet).map Prod.fst) :
    (h.get_dedupe_value data_packet
        ≤ (store.cache (h.build_dedupe_value_key k)).getD 0 →
      (∀ r ∈ (h.evaluate store data_packet).1, r.group_key ≠ k) ∧
      alistGet (h.evaluate store data_packet).2.1.dedupe_updates k
          = alistGet h.dedupe_updates k ∧
      alistGet (h.evaluate store data_packet).2.1.counter_updates k
          = alistGet h.counter_updates k ∧
      alistGet (h.evaluate store data_packet).2.1.state_updates k
          = alistGet h.state_updates k ∧
      "skipping_already_processed_update"
          ∈ (h.evaluate store data_packet).2.2) ∧
    (¬ h.get_dedupe_value data_packet
        ≤ (store.cache (h.build_dedupe_value_key k)).getD 0 →
      alistGet (h.evaluate store data_packet).2.1.dedupe_updates k
          = some (h.get_dedupe_value data_packet)) := by
  have hbridge :
      ((alistGet (h.get_state_data store
            ((h.get_group_key_values data_packet).map Prod.fst)) k).map
          DetectorStateData.dedupe_value).getD 0
        = (store.cache (h.build_dedupe_value_key k)).getD 0 := by
    rw [get_state_data_lookup h store _ k hk]
    rfl
  rcases hcg : h.condition_group with _ | conds
  · simp only [StatefulDetectorHandler.evaluate, hcg]
    constructor
    · intro hle
      have hstale : h.get_dedupe_value data_packet
          ≤ ((alistGet (h.get_state_data store
                ((h.get_group_key_values data_packet).map Prod.fst)) k).map
              DetectorStateData.dedupe_value).getD 0 := by
        rw [hbridge]
        exact hle
      obtain ⟨hd1, hd2⟩ := stageDedupes_stale
        (h.get_state_data store ((h.get_group_key_values data_packet).map Prod.fst))
        (h.get_dedupe_value data_packet) k hstale
        (h.get_group_key_values data_packet) h
      obtain ⟨hc1, hs1⟩ := stageDedupes_counter_state
        (h.get_state_data store ((h.get_group_key_values data_packet).map Prod.fst))
        (h.get_dedupe_value data_packet) (h.get_group_key_values data_packet) h
      refine ⟨by simp, hd1, ?_, ?_, List.mem_append.mpr (Or.inl (hd2 hk))⟩
      · rw [hc1]
      · rw [hs1]
    · intro hgt
      have hfresh : ¬ h.get_dedupe_value data_packet
          ≤ ((alistGet (h.get_state_data store
                ((h.get_group_key_values data_packet).map Prod.fst)) k).map
              DetectorStateData.dedupe_value).getD 0 := by
        rw [hbridge]
        exact hgt
      exact stageDedupes_fresh
        (h.get_state_data store ((h.get_group_key_values data_packet).map Prod.fst))
        (h.get_dedupe_value data_packet) k hfresh
        (h.get_group_key_values data_packet) h hk
  · simp only [StatefulDetectorHandler.evaluate, hcg]
    constructor
    · intro hle
      have hstale : h.get_dedupe_value data_packet
          ≤ ((alistGet (h.get_state_data store
                ((h.get_group_key_values data_packet).map Prod.fst)) k).map
              DetectorStateData.dedupe_value).getD 0 := by
        rw [hbridge]
        exact hle
      obtain ⟨hr, hd, hc, hs, ht⟩ := egks_stale
        (h.get_state_data store ((h.get_group_key_values data_packet).map Prod.fst))
        (h.get_dedupe_value data_packet) k hstale
        (h.get_group_key_values data_packet) h
      exact ⟨hr, hd, hc, hs, ht hk⟩
    · intro hgt
      have hfresh : ¬ h.get_dedupe_value data_packet
          ≤ ((alistGet (h.get_state_data store
                ((h.get_group_key_values data_packet).map Prod.fst)) k).map
              DetectorStateData.dedupe_value).getD 0 := by
        rw [hbridge]
        exact hgt
      exact egks_fresh
        (h.get_state_data store ((h.get_group_key_values data_packet).map Prod.fst))
        (h.get_dedupe_value data_packet) k hfresh
        (h.get_group_key_values data_packet) h hk

/-- C1 witness: at the mock handler, with dedupe value 2 already committed for
`val1`, re-evaluating a packet with dedupe 2 leaves the staged dedupe entry
unchanged and emits the skip signal. -/
theorem c1_dedupe_monotonic_witness :
    ((some "val1" : Option String)
        ∈ ((mockHandler testDetector).get_group_key_values
            ⟨"1", ⟨2, [(some "val1", 0)]⟩⟩).map Prod.fst) ∧
    ((mockHandler testDetector).get_dedupe_value ⟨"1", ⟨2, [(some "val1", 0)]⟩⟩
        ≤ (storeVal1Dedupe2.cache
            ((mockHandler testDetector).build_dedupe_value_key
              (some "val1"))).getD 0) ∧
    alistGet ((mockHandler testDetector).evaluate storeVal1Dedupe2
          ⟨"1", ⟨2, [(some "val1", 0)]⟩⟩).2.1.dedupe_updates (some "val1")
        = alistGet (mockHandler testDetector).dedupe_updates (some "val1") ∧
    "skipping_already_processed_update"
        ∈ ((mockHandler testDetector).evaluate storeVal1Dedupe2
            ⟨"1", ⟨2, [(some "val1", 0)]⟩⟩).2.2 :=
  ⟨by decide, by decide,
    ((c1_dedupe_monotonic (mockHandler testDetector) storeVal1Dedupe2
        ⟨"1", ⟨2, [(some "val1", 0)]⟩⟩ (some "val1") (by decide)).1
      (by decide)).2.1,
    ((c1_dedupe_monotonic (mockHandler testDetector) storeVal1Dedupe2
        ⟨"1", ⟨2, [(some "val1", 0)]⟩⟩ (some "val1") (by decide)).1
      (by decide)).2.2.2.2⟩

/-- C9: with no condition group configured, `evaluate` returns an empty
result list without raising, emits the `skipping_invalid_condition_group`
signal exactly once for the packet, stages no counter and no state updates,
and stages only the dedupe update for each fresh group key of the packet. -/
theorem c9_no_condition_group {P : Type} (h : StatefulDetectorHandler P)
    (store : StateStore) (data_packet : DataPacket P)
    (hcg : h.condition_group = none) :
    (h.evaluate store data_packet).1 = [] ∧
    (h.evaluate store data_packet).2.1.counter_updates = h.counter_updates ∧
    (h.evaluate store data_packet).2.1.state_updates = h.state_updates ∧
    ((h.evaluate store data_packet).2.2.count
        "skipping_invalid_condition_group") = 1 ∧
    (∀ k, k ∈ (h.get_group_key_values data_packet).map Prod.fst →
      ¬ h.get_dedupe_value data_packet
          ≤ (store.cache (h.build_dedupe_value_key k)).getD 0 →
      alistGet (h.evaluate store data_packet).2.1.dedupe_updates k
        = some (h.get_dedupe_value data_packet)) := by
  simp only [StatefulDetectorHandler.evaluate, hcg]
  obtain ⟨hc1, hs1⟩ := stageDedupes_counter_state
    (h.get_state_data store ((h.get_group_key_values data_packet).map Prod.fst))
    (h.get_dedupe_value data_packet) (h.get_group_key_values data_packet) h
  refine ⟨trivial, hc1, hs1, ?_, ?_⟩
  · rw [List.count_append]
    have h0 : ((StatefulDetectorHandler.stageDedupes h
        (h.get_state_data store ((h.get_group_key_values data_packet).map Prod.fst))
        (h.get_dedupe_value data_packet)
        (h.get_group_key_values data_packet)).2.count
          "skipping_invalid_condition_group") = 0 := by
      rw [List.count_eq_zero]
      intro hmem
      have h1 := stageDedupes_tel
        (h.get_state_data store ((h.get_group_key_values data_packet).map Prod.fst))
        (h.get_dedupe_value data_packet) (h.get_group_key_values data_packet) h
        "skipping_invalid_condition_group" hmem
      exact absurd h1 (by decide)
    rw [h0]
    decide
  · intro k hk hgt
    have hbridge :
        ((alistGet (h.get_state_data store
              ((h.get_group_key_values data_packet).map Prod.fst)) k).map
            DetectorStateData.dedupe_value).getD 0
          = (store.cache (h.build_dedupe_value_key k)).getD 0 := by
      rw [get_state_data_lookup h store _ k hk]
      rfl
    have hfresh : ¬ h.get_dedupe_value data_packet
        ≤ ((alistGet (h.get_state_data store
              ((h.get_group_key_values data_packet).map Prod.fst)) k).map
            DetectorStateData.dedupe_value).getD 0 := by
      rw [hbridge]
      exact hgt
    exact stageDedupes_fresh
      (h.get_state_data store ((h.get_group_key_values data_packet).map Prod.fst))
      (h.get_dedupe_value data_packet) k hfresh
      (h.get_group_key_values data_packet) h hk

/-- C9 witness: the test's packet (dedupe 2, `val1` = 100) on the mock handler
with no condition group — empty result list, one invalid-condition-group
signal, only the dedupe update staged. -/
theorem c9_no_condition_group_witness :
    ((mockHandler bareDetector).condition_group = none) ∧
    ((mockHandler bareDetector).evaluate emptyStore
        ⟨"1", ⟨2, [(some "val1", 100)]⟩⟩).1 = [] ∧
    ((mockHandler bareDetector).evaluate emptyStore
        ⟨"1", ⟨2, [(some "val1", 100)]⟩⟩).2.1.counter_updates
      = (mockHandler bareDetector).counter_updates ∧
    (((mockHandler bareDetector).evaluate emptyStore
        ⟨"1", ⟨2, [(some "val1", 100)]⟩⟩).2.2.count
        "skipping_invalid_condition_group") = 1 ∧
    alistGet ((mockHandler bareDetector).evaluate emptyStore
        ⟨"1", ⟨2, [(some "val1", 100)]⟩⟩).2.1.dedupe_updates (some "val1")
      = some 2 :=
  ⟨rfl,
    (c9_no_condition_group (mockHandler bareDetector) emptyStore
      ⟨"1", ⟨2, [(some "val1", 100)]⟩⟩ rfl).1,
    (c9_no_condition_group (mockHandler bareDetector) emptyStore
      ⟨"1", ⟨2, [(some "val1", 100)]⟩⟩ rfl).2.1,
    (c9_no_condition_group (mockHandler bareDetector) emptyStore
      ⟨"1", ⟨2, [(some "val1", 100)]⟩⟩ rfl).2.2.2.1,
    (c9_no_condition_group (mockHandler bareDetector) emptyStore
      ⟨"1", ⟨2, [(some "val1", 100)]⟩⟩ rfl).2.2.2.2 (some "val1") (by decide)
      (by decide)⟩

/-- With a condition group present, evaluating a single-key packet is exactly
one per-key state-machine step against the materialized prior state. -/
theorem evaluate_single_key {P : Type} (h : StatefulDetectorHandler P)
    (store : StateStore) (data_packet : DataPacket P) (k : Option String)
    (v : Int) (conds : List DataCondition)
    (hcg : h.condition_group = some conds)
    (hgv : h.get_group_key_values data_packet = [(k, v)]) :
    h.evaluate store data_packet
      = ((h.evaluate_group_key_value k v (h.state_for_key store k)
            (h.get_dedupe_value data_packet)).1.toList,
         (h.evaluate_group_key_value k v (h.state_for_key store k)
            (h.get_dedupe_value data_packet)).2.1,
         (h.evaluate_group_key_value k v (h.state_for_key store k)
            (h.get_dedupe_value data_packet)).2.2) := by
  simp [StatefulDetectorHandler.evaluate, hcg, hgv,
    StatefulDetectorHandler.evalGroupKeys, StatefulDetectorHandler.get_state_data,
    alistGet]

/-- C2: for a fresh single-key packet with a condition group configured, a
result is emitted for the group key exactly when the newly computed
`(active, priority)` pair differs from the previously committed
`(active, status)` pair — unchanged means an empty result list and no staged
state update, changed means exactly one result carrying the new pair, which
is also staged. -/
theorem c2_transition_only_emission {P : Type} (h : StatefulDetectorHandler P)
    (store : StateStore) (data_packet : DataPacket P) (k : Option String)
    (v : Int) (conds : List DataCondition)
    (hcg : h.condition_group = some conds)
    (hgv : h.get_group_key_values data_packet = [(k, v)])
    (hfresh : ¬ h.get_dedupe_value data_packet
        ≤ (store.cache (h.build_dedupe_value_key k)).getD 0) :
    (((h.state_for_key store k).active
          = decide (evaluate_condition_group conds v ≠ DetectorPriorityLevel.ok) ∧
        (h.state_for_key store k).status = evaluate_condition_group conds v) →
      (h.evaluate store data_packet).1 = [] ∧
      alistGet (h.evaluate store data_packet).2.1.state_updates k
          = alistGet h.state_updates k) ∧
    (¬ ((h.state_for_key store k).active
          = decide (evaluate_condition_group conds v ≠ DetectorPriorityLevel.ok) ∧
        (h.state_for_key store k).status = evaluate_condition_group conds v) →
      (h.evaluate store data_packet).1
          = [⟨k, decide (evaluate_condition_group conds v ≠ DetectorPriorityLevel.ok),
              evaluate_condition_group conds v, none, none⟩] ∧
      alistGet (h.evaluate store data_packet).2.1.state_updates k
          = some (decide (evaluate_condition_group conds v ≠ DetectorPriorityLevel.ok),
                  evaluate_condition_group conds v)) := by
  rw [evaluate_single_key h store data_packet k v conds hcg hgv]
  have hfr : ¬ h.get_dedupe_value data_packet
      ≤ (h.state_for_key store k).dedupe_value := hfresh
  have hcg' : (h.enqueue_dedupe_update k
      (h.get_dedupe_value data_packet)).condition_group = some conds := hcg
  simp only [StatefulDetectorHandler.evaluate_group_key_value, if_neg hfr, hcg']
  constructor
  · intro hpair
    rw [if_pos hpair]
    exact ⟨rfl, rfl⟩
  · intro hpair
    rw [if_neg hpair]
    exact ⟨rfl, alistGet_set_self _ _ _⟩

/-- C2 witness: the first evaluation of `val1` (prior default OK/inactive)
computes the changed pair (active, HIGH): exactly one result carrying it, and
the state update staged. -/
theorem c2_transition_only_emission_witness :
    (¬ (((mockHandler testDetector).state_for_key emptyStore (some "val1")).active
          = decide (evaluate_condition_group [⟨.gt, -1, .high⟩] 0
              ≠ DetectorPriorityLevel.ok) ∧
        ((mockHandler testDetector).state_for_key emptyStore (some "val1")).status
          = evaluate_condition_group [⟨.gt, -1, .high⟩] 0)) ∧
    ((mockHandler testDetector).evaluate emptyStore
        ⟨"1", ⟨2, [(some "val1", 0)]⟩⟩).1
      = [⟨some "val1", true, .high, none, none⟩] ∧
    alistGet ((mockHandler testDetector).evaluate emptyStore
        ⟨"1", ⟨2, [(some "val1", 0)]⟩⟩).2.1.state_updates (some "val1")
      = some (true, .high) :=
  ⟨by decide,
    (c2_transition_only_emission (mockHandler testDetector) emptyStore
        ⟨"1", ⟨2, [(some "val1", 0)]⟩⟩ (some "val1") 0 [⟨.gt, -1, .high⟩]
        rfl rfl (by decide)).2 (by decide)⟩
